import Mathlib

/-!
Verification development for the node-secure-email-server repository
(src/server.js). The JavaScript pipeline is shallowly embedded: strings
are Lean strings (the inputs of interest are ASCII, where the JS string
operations used by the code coincide with the list-of-characters model),
exceptions become Except, and async calls to the outside world (the DNS
resolver, the SMTP transport) become function parameters. Floating-point
comparisons against the literal 0.3 are modelled by the exact rational
inequality; for every feasible string length (far below 10^15) the IEEE
double comparison and the rational comparison agree, and the 0/0 = NaN
corner of the implementation is discussed at the relevant theorem.
-/

/-- ASCII lowercasing of one character, as JS String.prototype.toLowerCase
acts on the ASCII range (the only range exercised in this development). -/
def lowerChar (c : Char) : Char :=
  if 'A' ≤ c && c ≤ 'Z' then Char.ofNat (c.toNat + 32) else c

/-- Model of JS s.toLowerCase() restricted to ASCII content. -/
def jsToLower (s : String) : String :=
  ⟨s.data.map lowerChar⟩

/-- Is pat a prefix of s (character lists)? -/
def charsPrefix : List Char → List Char → Bool
  | [], _ => true
  | _ :: _, [] => false
  | a :: as, b :: bs => a == b && charsPrefix as bs

/-- Does pat occur inside s (character lists)? -/
def charsIncl (s pat : List Char) : Bool :=
  match s with
  | [] => charsPrefix pat []
  | _ :: rest => charsPrefix pat s || charsIncl rest pat

/-- Model of JS content.includes(pat): substring containment. -/
def strIncludes (s pat : String) : Bool :=
  charsIncl s.data pat.data

/-- The fixed spam-phrase list of validateEmailContent (server.js lines 81-85). -/
def spamKeywords : List String :=
  ["free money", "click here now", "urgent action required",
   "congratulations you won", "limited time offer", "act now",
   "make money fast", "no obligation", "risk free"]

/-- server.js line 87: the lowercased concatenation
subject + " " + text + " " + html scanned by the keyword rule. -/
def contentOf (subject text html : String) : String :=
  jsToLower (subject ++ " " ++ text ++ " " ++ html)

/-- server.js lines 88-90: how many phrases of the fixed list the content
includes (List.filter counts each list entry at most once, mirroring the
JS Array.prototype.filter over the keyword array). -/
def suspiciousCount (subject text html : String) : Nat :=
  (spamKeywords.filter (fun k => strIncludes (contentOf subject text html) k)).length

/-- server.js line 98: number of ASCII uppercase letters, the matches of
the regex for the range A-Z with the global flag. -/
def upperCount (s : String) : Nat :=
  (s.data.filter (fun c => 'A' ≤ c && c ≤ 'Z')).length

/-- server.js lines 80-105, validateEmailContent (the isAcceptable function of the spec).
The float test caps.length / total > 0.3 is modelled by the equivalent
integer inequality 10 * caps > 3 * total: for total > 0 the two agree for
every feasible length, and for total = 0 the implementation compares
NaN > 0.3, which is false, just as 0 > 0 is false here. -/
def validateEmailContent (subject text html : String) : Bool :=
  if suspiciousCount subject text html > 2 then false
  else if 10 * upperCount (subject ++ text) > 3 * (subject ++ text).length then false
  else true

/-- The set of distinct spam phrases that the content of a given request
includes: the matching entries of the fixed keyword list, collected into a
Finset so that multiplicity is impossible by construction. -/
def distinctMatches (subject text html : String) : Finset String :=
  (spamKeywords.filter (fun k => strIncludes (contentOf subject text html) k)).toFinset

/-- upperCount never exceeds the length of the string it scans. -/
lemma upperCount_le_length (s : String) : upperCount s ≤ s.length :=
  List.length_filter_le _ s.data

/-- The integer form of the capitalization test agrees with the exact
rational comparison of the ratio against 0.3 whenever caps ≤ total
(always the case for a count of selected characters). -/
lemma ratio_gt_iff (caps total : Nat) (hle : caps ≤ total) :
    ((0.3 : ℚ) < (caps : ℚ) / (total : ℚ)) ↔ 3 * total < 10 * caps := by
  rcases Nat.eq_zero_or_pos total with h0 | hpos
  · subst h0
    have hc : caps = 0 := Nat.le_zero.mp hle
    subst hc
    norm_num
  · have ht : (0 : ℚ) < (total : ℚ) := by exact_mod_cast hpos
    rw [lt_div_iff₀ ht, show (0.3 : ℚ) = 3 / 10 by norm_num, div_mul_eq_mul_div,
      div_lt_iff₀ (by norm_num : (0 : ℚ) < 10)]
    constructor
    · intro hx
      have hnat : (3 * total : ℚ) < (10 * caps : ℚ) := by linarith
      exact_mod_cast hnat
    · intro hx
      have hq : (3 * total : ℚ) < (10 * caps : ℚ) := by exact_mod_cast hx
      push_cast at hq
      linarith

/-- C1 counterexample: the claim says this call returns false, but the
code returns true: only the two phrases "free money" and "click here now"
match, the keyword rule fires only when more than 2 distinct phrases
match, and the uppercase ratio 3/35 is far below 0.3. -/
theorem spamExample_not_rejected :
    validateEmailContent "Free Money!!! Click here now to win" "" "" ≠ false := by
  decide

/-- C1 (amended): isAcceptable on the example subject of the spec with empty
text and html returns true, and exactly 2 distinct spam phrases match,
which does not exceed the threshold of 2. -/
theorem spamExample_accepted :
    validateEmailContent "Free Money!!! Click here now to win" "" "" = true ∧
    suspiciousCount "Free Money!!! Click here now to win" "" "" = 2 := by
  decide

/-- C6: the keyword rule of the content screener counts each phrase of the
fixed list at most once (the count equals the cardinality of the set of
distinct matching phrases), and the screener rejects exactly when that
distinct count exceeds 2 or the capitalization rule fires. -/
theorem keywordRule_distinct_count (s t h : String) :
    suspiciousCount s t h = (distinctMatches s t h).card ∧
    (∀ k, k ∈ distinctMatches s t h ↔
      k ∈ spamKeywords ∧ strIncludes (contentOf s t h) k = true) ∧
    (validateEmailContent s t h = false ↔
      2 < (distinctMatches s t h).card ∨
        3 * (s ++ t).length < 10 * upperCount (s ++ t)) := by
  have hnd : spamKeywords.Nodup := by decide
  have hcard : suspiciousCount s t h = (distinctMatches s t h).card := by
    unfold suspiciousCount distinctMatches
    rw [List.toFinset_card_of_nodup (hnd.filter _)]
  refine ⟨hcard, ?_, ?_⟩
  · intro k
    unfold distinctMatches
    simp [List.mem_filter]
  · unfold validateEmailContent
    rw [← hcard]
    split_ifs with h1 h2
    · exact iff_of_true rfl (Or.inl h1)
    · exact iff_of_true rfl (Or.inr h2)
    · exact iff_of_false (by simp) (by omega)

/-- C7: when the keyword rule does not fire, the screener rejects exactly
when the uppercase ratio of the raw subject + text concatenation (html
excluded) exceeds 0.3, the float threshold being modelled by the exact
rational 3/10. -/
theorem capsRule_threshold (s t h : String)
    (hkw : suspiciousCount s t h ≤ 2) :
    validateEmailContent s t h = false ↔
      (0.3 : ℚ) < (upperCount (s ++ t) : ℚ) / (((s ++ t).length : ℚ)) := by
  rw [ratio_gt_iff _ _ (upperCount_le_length (s ++ t))]
  unfold validateEmailContent
  split_ifs with h1 h2
  · exact absurd h1 (by omega)
  · exact iff_of_true rfl h2
  · exact iff_of_false (by simp) (by omega)

/-- C7 witness: on subject "AAAAB" (4 of 5 characters uppercase) the
screener rejects, and the equivalence of the theorem holds there. -/
theorem capsRule_threshold_witness :
    suspiciousCount "AAAAB" "" "" ≤ 2 ∧
    (validateEmailContent "AAAAB" "" "" = false ↔
      (0.3 : ℚ) < (upperCount ("AAAAB" ++ "") : ℚ) / ((("AAAAB" ++ "" : String).length : ℚ))) :=
  ⟨by decide, capsRule_threshold "AAAAB" "" "" (by decide)⟩

/-- C10: with empty subject and empty text the capitalization rule can
never reject (the implementation compares NaN = 0/0 against 0.3, which is
false; the model compares 0 < 0, also false), so any html that does not
trip the keyword rule is accepted. -/
theorem emptySubjectText_caps_never_rejects (html : String)
    (hkw : suspiciousCount "" "" html ≤ 2) :
    validateEmailContent "" "" html = true := by
  unfold validateEmailContent
  have h1 : ¬ (suspiciousCount "" "" html > 2) := by omega
  rw [if_neg h1]
  norm_num [upperCount]

/-- C10 witness: an html body full of capitals and no spam phrases is
accepted when subject and text are empty. -/
theorem emptySubjectText_caps_never_rejects_witness :
    suspiciousCount "" "" "<p>HELLO WORLD THIS IS ALL CAPS</p>" ≤ 2 ∧
    validateEmailContent "" "" "<p>HELLO WORLD THIS IS ALL CAPS</p>" = true :=
  ⟨by decide, emptySubjectText_caps_never_rejects _ (by decide)⟩

/-- The fixed denylist of server.js lines 62-64. -/
def denylist : List String :=
  ["test@test.com", "example@example.com", "admin@admin.com"]

/-- server.js lines 60-66, validateEmail. The external library predicate
validator.isEmail is an abstract parameter: the repository does not define
it, and the facts proved below hold for every choice of it. The denylist
test validator.isIn(email.toLowerCase(), ...) is exact list membership of
the lowercased address. -/
def validateEmail (isEmail : String → Bool) (email : String) : Bool :=
  isEmail email && !(denylist.contains (jsToLower email))

/-- JS String.prototype.split with a one-character separator, on
character lists: the (possibly empty) segments between separators. -/
def splitParts (sep : Char) : List Char → List (List Char)
  | [] => [[]]
  | c :: rest =>
    let ps := splitParts sep rest
    if c == sep then [] :: ps
    else
      match ps with
      | p :: tail => (c :: p) :: tail
      | [] => [[c]]

/-- server.js lines 69-77, validateDomain. The DNS resolver is the
abstract parameter resolveMx, returning the number of MX records of a
domain, or none when the lookup fails (NXDOMAIN, timeout, malformed
input); a failed lookup is caught and yields false. The domain is the
second element of the split of the address at the at sign, as in JS
email.split(at)[1]; when the address has no at sign that element is
undefined and the resolver call fails, hence false. -/
def validateDomain (resolveMx : String → Option Nat) (email : String) : Bool :=
  match (splitParts '@' email.data).get? 1 with
  | none => false
  | some d =>
    match resolveMx (⟨d⟩ : String) with
    | none => false
    | some n => n > 0

/-- JS truthiness of a recipient entry: a missing field (undefined) or a
null entry is none and falsy; the empty string is falsy; every other
string is truthy. -/
def truthy : Option String → Bool
  | none => false
  | some s => !(s == "")

/-- server.js line 171: [to, ...cc, ...bcc].filter(Boolean) — the ordered
recipient list, with every falsy entry dropped. -/
def allRecipients (toAddr : Option String) (cc bcc : List (Option String)) : List String :=
  ((toAddr :: cc) ++ bcc).filterMap (fun e => if truthy e then e else none)

/-- server.js lines 172-181: the per-address loop of sendEmail. For each
address in order, the syntax-and-denylist check runs first and its thrown
error mentions the address; only if it passes does the MX-domain check
run, with its own error; the first thrown error aborts the loop. -/
def validateRecipients (isEmail : String → Bool) (resolveMx : String → Option Nat) :
    List String → Except String Unit
  | [] => Except.ok ()
  | email :: rest =>
    if validateEmail isEmail email = false then
      Except.error ("Invalid email address: " ++ email)
    else if validateDomain resolveMx email = false then
      Except.error ("Invalid domain for email: " ++ email)
    else validateRecipients isEmail resolveMx rest

/-- C8: for every syntax predicate supplied by the external library, an
address whose lowercase form is on the denylist is rejected (validateEmail
consults no domain or DNS information at all, so this holds regardless of
the domain), and validateEmail accepts only addresses that the syntax
predicate accepts and whose lowercase form is off the denylist. -/
theorem denylist_rejects (isEmail : String → Bool) (e : String) :
    (jsToLower e ∈ denylist → validateEmail isEmail e = false) ∧
    (validateEmail isEmail e = true → isEmail e = true ∧ jsToLower e ∉ denylist) := by
  constructor
  · intro hmem
    unfold validateEmail
    have hc : denylist.contains (jsToLower e) = true := by
      simpa [List.contains] using hmem
    rw [hc]
    simp
  · intro htrue
    unfold validateEmail at htrue
    simp only [Bool.and_eq_true, Bool.not_eq_true'] at htrue
    refine ⟨htrue.1, ?_⟩
    intro hmem
    have hc : denylist.contains (jsToLower e) = true := by
      simpa [List.contains] using hmem
    rw [hc] at htrue
    exact absurd htrue.2 (by simp)

/-- C8 witness: a mixed-case variant of a denylisted address is rejected
even under a syntax predicate that accepts everything, and an accepted
address is syntactically valid and off the denylist. -/
theorem denylist_rejects_witness :
    validateEmail (fun _ => true) "Test@TEST.com" = false ∧
    ((fun s => s == "good@mail.org") "good@mail.org" = true ∧
      jsToLower "good@mail.org" ∉ denylist) :=
  ⟨(denylist_rejects (fun _ => true) "Test@TEST.com").1 (by decide),
   (denylist_rejects (fun s => s == "good@mail.org") "good@mail.org").2 (by decide)⟩

/-- C9: a request all of whose recipient entries are falsy — the to field
missing, cc and bcc holding only null, undefined or empty-string entries —
passes recipient validation with no validation error, for every syntax
predicate and every DNS resolver, because filter(Boolean) removes every
entry before the checking loop runs. -/
theorem falsyRecipients_skipped (isEmail : String → Bool)
    (resolveMx : String → Option Nat)
    (toAddr : Option String) (cc bcc : List (Option String))
    (hfalsy : ∀ e ∈ (toAddr :: cc) ++ bcc, truthy e = false) :
    validateRecipients isEmail resolveMx (allRecipients toAddr cc bcc) = Except.ok () := by
  have hnil : allRecipients toAddr cc bcc = [] := by
    unfold allRecipients
    rw [List.filterMap_eq_nil_iff]
    intro e he
    rw [hfalsy e he]
    simp
  rw [hnil]
  rfl

/-- C9 witness: to missing, cc holding an empty string, bcc holding a
null: validation succeeds even under a syntax predicate rejecting
everything and a resolver that always fails. -/
theorem falsyRecipients_skipped_witness :
    (∀ e ∈ ((none : Option String) :: [some ""]) ++ [none], truthy e = false) ∧
    validateRecipients (fun _ => false) (fun _ => none)
      (allRecipients none [some ""] [none]) = Except.ok () :=
  ⟨by decide, falsyRecipients_skipped (fun _ => false) (fun _ => none) none
    [some ""] [none] (by decide)⟩

/-- The environment-variable configuration surface read by server.js
(SMTP credentials are consumed by the abstracted transport and kept here
only for completeness). A none models an unset variable. -/
structure Config where
  smtpHost : Option String
  emailUser : Option String
  emailPass : Option String
  domainName : Option String
  fromEmail : Option String
  fromName : Option String
deriving DecidableEq

/-- JS a || dflt for a string-or-undefined a with a string default: the
default is taken when a is undefined or empty. -/
def jsOr (a : Option String) (dflt : String) : String :=
  match a with
  | none => dflt
  | some s => if s == "" then dflt else s

/-- JS a || b where both sides may be undefined. -/
def jsOrOpt (a b : Option String) : Option String :=
  match a with
  | none => b
  | some s => if s == "" then b else some s

/-- How a JS template literal renders a string-or-undefined value: an
unset variable prints as the text undefined. -/
def envStr : Option String → String
  | some s => s
  | none => "undefined"

/-- server.js line 189: text.replace(newline, br) applied globally,
on character lists. -/
def replaceNewlines : List Char → List Char
  | [] => []
  | c :: rest =>
    if c == '\n' then '<' :: 'b' :: 'r' :: '>' :: replaceNewlines rest
    else c :: replaceNewlines rest

/-- server.js lines 110-131: the notification layout; the sending domain
(or its default) appears in the footer and the content is embedded
unescaped. Insignificant template-literal indentation is kept as written
in the source. -/
def notificationTemplate (domain content : String) : String :=
  "\n      <!DOCTYPE html>\n      <html>\n      <head>\n        <meta charset=\"utf-8\">\n        <meta name=\"viewport\" content=\"width=device-width, initial-scale=1.0\">\n        <title>Notification</title>\n      </head>\n      <body style=\"font-family: Arial, sans-serif; line-height: 1.6; color: #333; max-width: 600px; margin: 0 auto; padding: 20px;\">\n        <div style=\"background: #f8f9fa; padding: 20px; border-radius: 5px;\">\n          <h2 style=\"color: #2c3e50; margin-bottom: 20px;\">Notification</h2>\n          <div style=\"background: white; padding: 20px; border-radius: 5px; border-left: 4px solid #3498db;\">\n            "
    ++ content
    ++ "\n          </div>\n          <div style=\"margin-top: 20px; padding-top: 20px; border-top: 1px solid #eee; font-size: 12px; color: #666;\">\n            <p>This email was sent from "
    ++ domain
    ++ "</p>\n            <p>If you received this email in error, please ignore it.</p>\n          </div>\n        </div>\n      </body>\n      </html>\n    "

/-- server.js lines 132-149: the transactional layout. -/
def transactionalTemplate (domain content : String) : String :=
  "\n      <!DOCTYPE html>\n      <html>\n      <head>\n        <meta charset=\"utf-8\">\n        <meta name=\"viewport\" content=\"width=device-width, initial-scale=1.0\">\n      </head>\n      <body style=\"font-family: Arial, sans-serif; line-height: 1.6; color: #333;\">\n        <div style=\"max-width: 600px; margin: 0 auto; padding: 20px;\">\n          "
    ++ content
    ++ "\n          <hr style=\"margin: 30px 0; border: none; border-top: 1px solid #eee;\">\n          <p style=\"font-size: 12px; color: #666;\">\n            This is a transactional email from "
    ++ domain
    ++ "\n          </p>\n        </div>\n      </body>\n      </html>\n    "

/-- server.js lines 108-153, createEmailTemplate: the object lookup
templates[type] falls back to the notification layout for every
unrecognized type; the domain in both footers is DOMAIN_NAME with the
default your-domain.com. -/
def createEmailTemplate (cfg : Config) (content ty : String) : String :=
  if ty == "transactional" then
    transactionalTemplate (jsOr cfg.domainName "your-domain.com") content
  else
    notificationTemplate (jsOr cfg.domainName "your-domain.com") content

/-- The request body of the single-send endpoint after the destructuring
defaults of server.js lines 159-168 (cc, bcc, attachments default to
empty, templateType to notification); to and html may be absent. The JS
key to is rendered as toAddr because to is reserved in Lean. -/
structure EmailData where
  toAddr : Option String
  cc : List (Option String)
  bcc : List (Option String)
  subject : String
  text : String
  html : Option String
  templateType : String
  attachments : List String
deriving DecidableEq

/-- The from identity of server.js lines 192-195; the address is
FROM_EMAIL || EMAIL_USER and may be undefined. -/
structure FromField where
  name : String
  address : Option String
deriving DecidableEq

/-- The message handed to transporter.sendMail (server.js lines 191-215):
recipients, bodies, the fixed anti-spam headers, the generated
Message-ID, and the disabled tracking flags. The JS keys from and to are
rendered here as sender and toAddr because both words are reserved in
Lean. -/
structure MailOptions where
  sender : FromField
  toAddr : Option String
  cc : Option (List (Option String))
  bcc : Option (List (Option String))
  subject : String
  text : String
  html : String
  attachments : List String
  xMailer : String
  xPriority : String
  listUnsubscribe : String
  messageId : String
  clickTracking : Bool
  openTracking : Bool
deriving DecidableEq

/-- What a successful transporter.sendMail resolves to. -/
structure SendInfo where
  messageId : String
  accepted : List String
  rejected : List String
deriving DecidableEq

/-- The value sendEmail returns on success (server.js lines 220-225). -/
structure DeliverySuccess where
  success : Bool
  messageId : String
  accepted : List String
  rejected : List String
deriving DecidableEq

/-- server.js lines 188-215: the composed message. now and rand stand for
Date.now() and the rendered Math.random() of the Message-ID; cc and bcc
are omitted (undefined) when empty rather than sent as empty lists. -/
def composeMail (cfg : Config) (now rand : Nat) (d : EmailData) : MailOptions :=
  { sender := { name := jsOr cfg.fromName "Your App",
                address := jsOrOpt cfg.fromEmail cfg.emailUser }
    toAddr := d.toAddr
    cc := if d.cc.length > 0 then some d.cc else none
    bcc := if d.bcc.length > 0 then some d.bcc else none
    subject := d.subject
    text := d.text
    html := match d.html with
      | some h => if h == "" then createEmailTemplate cfg (⟨replaceNewlines d.text.data⟩ : String) d.templateType else h
      | none => createEmailTemplate cfg (⟨replaceNewlines d.text.data⟩ : String) d.templateType
    attachments := d.attachments
    xMailer := "NodeJS Email Server v1.0"
    xPriority := "3"
    listUnsubscribe := "<mailto:unsubscribe@" ++ envStr cfg.domainName ++ ">"
    messageId := "<" ++ toString now ++ "." ++ toString rand ++ "@" ++ envStr cfg.domainName ++ ">"
    clickTracking := false
    openTracking := false }

/-- server.js lines 156-230, sendEmail: recipient validation, content
screening, composition, then the transport call. The transporter is the
abstract parameter transport; a rejected sendMail promise is its error
case, and the catch of lines 226-229 logs and rethrows that error
unchanged, which in the Except embedding is the same error value. -/
def sendEmail (cfg : Config) (isEmail : String → Bool)
    (resolveMx : String → Option Nat) (now rand : Nat)
    (transport : MailOptions → Except String SendInfo)
    (d : EmailData) : Except String DeliverySuccess :=
  match validateRecipients isEmail resolveMx (allRecipients d.toAddr d.cc d.bcc) with
  | Except.error e => Except.error e
  | Except.ok _ =>
    if validateEmailContent d.subject d.text (d.html.getD "") = false then
      Except.error "Email content appears to be spam-like"
    else
      match transport (composeMail cfg now rand d) with
      | Except.ok info =>
        Except.ok { success := true, messageId := info.messageId,
                    accepted := info.accepted, rejected := info.rejected }
      | Except.error e => Except.error e

/-- The two response shapes of the single-send route (server.js lines
233-243): the delivery result as JSON with status 200, or status 400 with
a success false flag and the failure reason. -/
inductive HttpReply where
  | json200 (body : DeliverySuccess)
  | status400 (success : Bool) (error : String)
deriving DecidableEq

/-- server.js lines 233-243: the single-send route invokes sendEmail and
converts any thrown failure into a 400 response carrying the error
message; it is a total function into HttpReply, so no exception ever
escapes to the HTTP client. -/
def handleSendEmail (cfg : Config) (isEmail : String → Bool)
    (resolveMx : String → Option Nat) (now rand : Nat)
    (transport : MailOptions → Except String SendInfo)
    (d : EmailData) : HttpReply :=
  match sendEmail cfg isEmail resolveMx now rand transport d with
  | Except.ok r => HttpReply.json200 r
  | Except.error e => HttpReply.status400 false e

/-- The validation loop on a list that starts with passing addresses and
then hits a failing one stops at the failing address with the error of
whichever of its two checks fails first, independently of everything
after it. -/
lemma validateRecipients_firstFailure (isEmail : String → Bool)
    (resolveMx : String → Option Nat) (good : List String) (bad : String)
    (rest : List String)
    (hgood : ∀ a ∈ good, validateEmail isEmail a = true ∧ validateDomain resolveMx a = true)
    (hbad : validateEmail isEmail bad = false ∨ validateDomain resolveMx bad = false) :
    validateRecipients isEmail resolveMx (good ++ bad :: rest) =
      Except.error (if validateEmail isEmail bad then
          "Invalid domain for email: " ++ bad
        else "Invalid email address: " ++ bad) := by
  induction good with
  | nil =>
    simp only [List.nil_append]
    unfold validateRecipients
    rcases hbad with hb | hb
    · rw [if_pos hb, hb]
      simp
    · by_cases he : validateEmail isEmail bad = false
      · rw [if_pos he, he]
        simp
      · have he' : validateEmail isEmail bad = true := by
          cases hBool : validateEmail isEmail bad
          · exact absurd hBool he
          · rfl
        rw [if_neg he, if_pos hb, he']
        simp
  | cons a as ih =>
    have ha := hgood a (List.mem_cons_self a as)
    simp only [List.cons_append]
    unfold validateRecipients
    rw [if_neg (by rw [ha.1]; simp), if_neg (by rw [ha.2]; simp)]
    exact ih fun b hb => hgood b (List.mem_cons_of_mem a hb)

/-- C5: the recipients are validated in the order to, then cc, then bcc
(the order of allRecipients); each address gets the syntax-and-denylist
check first and the MX-domain check second; the first address failing
either check makes the whole request fail with the error naming that
address, whatever the addresses after it, the content, and the transport
would have done — none of them can influence the outcome. -/
theorem firstInvalidRecipient_aborts (cfg : Config) (isEmail : String → Bool)
    (resolveMx : String → Option Nat) (now rand : Nat)
    (transport : MailOptions → Except String SendInfo) (d : EmailData)
    (good : List String) (bad : String) (rest : List String)
    (hsplit : allRecipients d.toAddr d.cc d.bcc = good ++ bad :: rest)
    (hgood : ∀ a ∈ good, validateEmail isEmail a = true ∧ validateDomain resolveMx a = true)
    (hbad : validateEmail isEmail bad = false ∨ validateDomain resolveMx bad = false) :
    sendEmail cfg isEmail resolveMx now rand transport d =
      Except.error (if validateEmail isEmail bad then
          "Invalid domain for email: " ++ bad
        else "Invalid email address: " ++ bad) := by
  unfold sendEmail
  rw [hsplit, validateRecipients_firstFailure isEmail resolveMx good bad rest hgood hbad]

/-- C5 witness: a request whose to address passes both checks and whose
cc holds the syntactically invalid address bad fails with the message
naming bad, with a transport that would have succeeded. -/
theorem firstInvalidRecipient_aborts_witness :
    sendEmail ⟨none, none, none, none, none, none⟩ (fun s => s == "ok@x.com")
      (fun _ => some 1) 0 0 (fun _ => Except.ok ⟨"id1", [], []⟩)
      ⟨some "ok@x.com", [some "bad"], [], "Hi", "hello", none, "notification", []⟩ =
      Except.error "Invalid email address: bad" := by
  have h := firstInvalidRecipient_aborts ⟨none, none, none, none, none, none⟩
    (fun s => s == "ok@x.com") (fun _ => some 1) 0 0
    (fun _ => Except.ok ⟨"id1", [], []⟩)
    ⟨some "ok@x.com", [some "bad"], [], "Hi", "hello", none, "notification", []⟩
    ["ok@x.com"] "bad" [] (by decide) (by decide) (Or.inl (by decide))
  have hc : validateEmail (fun s => s == "ok@x.com") "bad" = false := by decide
  rw [h, hc]
  simp

/-- C3: for every composed message whose transport call fails, the
single-send route answers with the 400 failure response whose error text
is the transport error verbatim; handleSendEmail is a total function into
HttpReply, so the exception thrown inside sendEmail (the rethrow of
server.js line 228) is always caught by the route and never reaches the
HTTP caller. -/
theorem transportError_failedResult (cfg : Config) (isEmail : String → Bool)
    (resolveMx : String → Option Nat) (now rand : Nat)
    (transport : MailOptions → Except String SendInfo) (d : EmailData)
    (msg : String)
    (hrec : validateRecipients isEmail resolveMx (allRecipients d.toAddr d.cc d.bcc) = Except.ok ())
    (hcontent : validateEmailContent d.subject d.text (d.html.getD "") = true)
    (htrans : transport (composeMail cfg now rand d) = Except.error msg) :
    handleSendEmail cfg isEmail resolveMx now rand transport d =
      HttpReply.status400 false msg := by
  unfold handleSendEmail sendEmail
  rw [hrec, hcontent, htrans]
  simp

/-- C3 witness: a well-formed request whose transport rejects with a
connection error is answered with status 400 and that exact error text. -/
theorem transportError_failedResult_witness :
    handleSendEmail ⟨none, none, none, none, none, none⟩ (fun _ => true)
      (fun _ => some 2) 0 0 (fun _ => Except.error "SMTP connect ECONNREFUSED")
      ⟨some "user@mail.com", [], [], "Hello", "See you soon.", none, "notification", []⟩ =
      HttpReply.status400 false "SMTP connect ECONNREFUSED" :=
  transportError_failedResult ⟨none, none, none, none, none, none⟩ (fun _ => true)
    (fun _ => some 2) 0 0 (fun _ => Except.error "SMTP connect ECONNREFUSED")
    ⟨some "user@mail.com", [], [], "Hello", "See you soon.", none, "notification", []⟩
    "SMTP connect ECONNREFUSED" rfl (by decide) rfl

/-- Observable steps of the bulk loop (server.js lines 258-268): a send
attempt for an entry, or the awaited 1000 ms pause. -/
inductive BulkEvent where
  | attempt (d : EmailData)
  | delay
deriving DecidableEq

/-- A per-entry outcome pushed into results: the own to field of the entry
(before the template merge), and either the message id or the error
text (server.js lines 261 and 266). -/
inductive BulkOutcome where
  | sent (email : Option String) (messageId : String)
  | failed (email : Option String) (error : String)
deriving DecidableEq

/-- server.js lines 256-268: the sequential bulk loop. Each entry is sent
after the shared template record is merged over it; on success the
outcome and a delay event are recorded (the await of line 264 sits inside
the try, after the push); on failure the catch records the outcome and
the loop proceeds immediately with no delay event. -/
def processBulk (send : EmailData → Except String DeliverySuccess)
    (mergeTemplate : EmailData → EmailData) :
    List EmailData → List BulkOutcome × List BulkEvent
  | [] => ([], [])
  | d :: rest =>
    let tail := processBulk send mergeTemplate rest
    match send (mergeTemplate d) with
    | Except.ok r =>
      (BulkOutcome.sent d.toAddr r.messageId :: tail.1,
       BulkEvent.attempt d :: BulkEvent.delay :: tail.2)
    | Except.error msg =>
      (BulkOutcome.failed d.toAddr msg :: tail.1,
       BulkEvent.attempt d :: tail.2)

/-- The two response shapes of the bulk route (server.js lines 246-271). -/
inductive BulkReply where
  | json200 (results : List BulkOutcome)
  | status400 (success : Bool) (error : String)
deriving DecidableEq

/-- server.js lines 246-271: the bulk route. A body whose emails field is
not an array (none here) or has more than 10 entries is answered 400
before the loop runs; otherwise the loop outcome list is returned with
the event trace of the run. send abstracts the sendEmail call with its
configuration, validators and transport; mergeTemplate abstracts the JS
spread merge of the shared template over an entry. -/
def sendBulk (send : EmailData → Except String DeliverySuccess)
    (mergeTemplate : EmailData → EmailData)
    (emails : Option (List EmailData)) : BulkReply × List BulkEvent :=
  match emails with
  | none => (BulkReply.status400 false "Maximum 10 emails allowed per bulk request", [])
  | some es =>
    if es.length > 10 then
      (BulkReply.status400 false "Maximum 10 emails allowed per bulk request", [])
    else
      let p := processBulk send mergeTemplate es
      (BulkReply.json200 p.1, p.2)

/-- Does a delay elapse between every two consecutive send attempts of a
trace? This is the property the claim asserts of every bulk run. -/
def delaysBetweenAttempts : List BulkEvent → Bool
  | [] => true
  | BulkEvent.attempt _ :: BulkEvent.attempt _ :: _ => false
  | _ :: rest => delaysBetweenAttempts rest

/-- The outcome list of the bulk loop: one entry per input, in input
order, never aborted by a failure. -/
lemma processBulk_results (send : EmailData → Except String DeliverySuccess)
    (mergeTemplate : EmailData → EmailData) (emails : List EmailData) :
    (processBulk send mergeTemplate emails).1 =
      emails.map (fun d =>
        match send (mergeTemplate d) with
        | Except.ok r => BulkOutcome.sent d.toAddr r.messageId
        | Except.error msg => BulkOutcome.failed d.toAddr msg) := by
  induction emails with
  | nil => rfl
  | cons d rest ih =>
    cases h : send (mergeTemplate d) with
    | ok r => simp [processBulk, h, ih]
    | error msg => simp [processBulk, h, ih]

/-- C2 counterexample: a run of the bulk endpoint in which both entries
fail (the transport always rejects) produces two adjacent attempts with
no delay between them, so the claimed fixed delay after every attempt
regardless of outcome does not hold: the awaited pause sits inside the
try block after a successful send, and the catch path skips it. -/
theorem bulkDelay_missing_after_failure :
    delaysBetweenAttempts
      (sendBulk
        (sendEmail ⟨none, none, none, none, none, none⟩ (fun _ => true)
          (fun _ => some 1) 0 0 (fun _ => Except.error "connection refused"))
        id
        (some [⟨some "a@b.com", [], [], "Hi", "one", none, "notification", []⟩,
               ⟨some "c@d.com", [], [], "Hi", "two", none, "notification", []⟩])).2 = false := by
  decide

/-- C2 (amended): in every bulk run the trace consists, entry by entry in
input order, of the attempt for the entry followed by a delay exactly when that
attempt succeeded; a failed attempt is followed by the next entry with no
delay. -/
theorem bulkTrace_delay_after_success
    (send : EmailData → Except String DeliverySuccess)
    (mergeTemplate : EmailData → EmailData) (emails : List EmailData) :
    (processBulk send mergeTemplate emails).2 =
      (emails.map (fun d =>
        match send (mergeTemplate d) with
        | Except.ok _ => [BulkEvent.attempt d, BulkEvent.delay]
        | Except.error _ => [BulkEvent.attempt d])).flatten := by
  induction emails with
  | nil => rfl
  | cons d rest ih =>
    cases h : send (mergeTemplate d) with
    | ok r => simp [processBulk, h, ih]
    | error msg => simp [processBulk, h, ih]

/-- C4: a bulk body whose emails field is not an array, or has more than
10 entries, is answered 400 with no send attempted (empty trace); every
accepted body is processed entry by entry in input order, a failing entry
does not abort the batch, and the response is the full ordered outcome
list with, per entry, the original to field and either the message id or
the error text. -/
theorem bulkGuard_and_results (send : EmailData → Except String DeliverySuccess)
    (mergeTemplate : EmailData → EmailData) :
    (sendBulk send mergeTemplate none =
      (BulkReply.status400 false "Maximum 10 emails allowed per bulk request", [])) ∧
    (∀ emails : List EmailData, emails.length > 10 →
      sendBulk send mergeTemplate (some emails) =
        (BulkReply.status400 false "Maximum 10 emails allowed per bulk request", [])) ∧
    (∀ emails : List EmailData, emails.length ≤ 10 →
      (sendBulk send mergeTemplate (some emails)).1 =
        BulkReply.json200 (emails.map (fun d =>
          match send (mergeTemplate d) with
          | Except.ok r => BulkOutcome.sent d.toAddr r.messageId
          | Except.error msg => BulkOutcome.failed d.toAddr msg))) := by
  refine ⟨rfl, ?_, ?_⟩
  · intro emails hlen
    simp [sendBulk, hlen]
  · intro emails hlen
    have hnot : ¬ (emails.length > 10) := by omega
    simp [sendBulk, hnot, processBulk_results]

/-- C4 witness: a body of 11 entries is rejected with the 400 message and
an empty trace, and a single-entry body whose send fails is answered with
the one-element failed outcome carrying the to field of that entry and the
error text. -/
theorem bulkGuard_and_results_witness :
    (sendBulk (fun _ => Except.error "boom") id
      (some (List.replicate 11 ⟨none, [], [], "", "", none, "notification", []⟩)) =
      (BulkReply.status400 false "Maximum 10 emails allowed per bulk request", [])) ∧
    ((sendBulk (fun _ => Except.error "boom") id
      (some [⟨some "a@b.c", [], [], "", "", none, "notification", []⟩])).1 =
      BulkReply.json200 [BulkOutcome.failed (some "a@b.c") "boom"]) := by
  constructor
  · exact (bulkGuard_and_results (fun _ => Except.error "boom") id).2.1 _ (by decide)
  · have h := (bulkGuard_and_results (fun _ => Except.error "boom") id).2.2
      [⟨some "a@b.c", [], [], "", "", none, "notification", []⟩] (by decide)
    rw [h]
    rfl
